import Mathlib

/-!
Verification of the FindSourceURL agent (`findsourceurl-agent/agent_main.py`).

The development shallowly embeds the workflow controller of `agent_main.py`:
the Python string heuristics are modelled by executable functions on
`String` (lists of characters), the LangGraph `AgentState` TypedDict by a
structure of `Option String` fields (a missing key or a stored `None` both
become `none`, matching how every read in the source goes through
`state.get`), the graph nodes by pure functions from an explicit
environment (the outcome of every external effect: navigation, capture,
model call, click, upload) to state updates, and the graph wiring by a
small-step interpreter over the node set.  All definitions follow the
source line by line; comments cite the Python construct they translate.
-/

namespace FindSourceURL

/-! ### Python string primitives

Models of the `str` operations the agent uses: `strip`, `split`, `lower`,
`startswith`, the `in` substring test, and truthiness (`if s:` is true for
a non-empty string, false for `None` and `""`). -/

/-- Whitespace for Python `str.strip()` / `str.split()` (ASCII subset, the
only characters the agent's strings can contain). -/
def pyIsSpace (c : Char) : Bool :=
  c = ' ' || c = '\t' || c = '\n' || c = '\x0d' || c = '\x0b' || c = '\x0c'

/-- Python `str.lower()` (ASCII case folding). -/
def pyLower (s : String) : String :=
  String.mk (s.toList.map Char.toLower)

/-- Helper for `pySplit`: accumulate the current word (reversed) while
scanning the character list. -/
def pySplitAux : List Char → List Char → List (List Char)
  | [], acc => if acc.isEmpty then [] else [acc.reverse]
  | c :: cs, acc =>
    if pyIsSpace c then
      if acc.isEmpty then pySplitAux cs [] else acc.reverse :: pySplitAux cs []
    else
      pySplitAux cs (c :: acc)

/-- Python `str.split()` with no argument: split on runs of whitespace,
discarding empty words. -/
def pySplit (s : String) : List String :=
  (pySplitAux s.toList []).map String.mk

/-- Python `str.strip()` with no argument: drop leading and trailing
whitespace. -/
def pyStrip (s : String) : String :=
  String.mk ((((s.toList.dropWhile pyIsSpace).reverse.dropWhile pyIsSpace).reverse))

/-- Python `str.strip(chars)`: drop leading and trailing characters drawn
from `chars`. -/
def pyStripChars (chars : List Char) (s : String) : String :=
  String.mk ((((s.toList.dropWhile (chars.contains ·)).reverse.dropWhile
    (chars.contains ·)).reverse))

/-- Does `pat` occur as a contiguous sublist of `l`?  (Python `pat in s`.) -/
def listOccurs (l pat : List Char) : Bool :=
  if pat.isPrefixOf l then true
  else
    match l with
    | [] => false
    | _ :: t => listOccurs t pat

/-- Python `sub in s` for strings. -/
def pyIn (sub s : String) : Bool :=
  listOccurs s.toList sub.toList

/-- Python `s.startswith(pre)`. -/
def pyStartsWith (pre s : String) : Bool :=
  pre.toList.isPrefixOf s.toList

/-- Python truthiness of an optional string: `None` and `""` are falsy. -/
def truthy : Option String → Bool
  | none => false
  | some s => !s.isEmpty

/-- The backtick character (the quote the model wraps selectors in). -/
def backtickChar : Char := Char.ofNat 96

/-! ### The locator heuristic (`should_perform_upload_or_end`, lines 866-874)

`cleaned_result = analysis_result.strip()`; if it starts and ends with a
backtick, the quotes are removed and the remainder stripped again; the
reply is "likely a locator" when it is non-empty, shorter than 4
whitespace-separated words, and does not contain `icon` case-insensitively. -/

/-- Lines 867-869: strip, remove one pair of surrounding backticks, strip
again (`cleaned_result[1:-1].strip()` drops the first and last character). -/
def cleanedResult (analysis : String) : String :=
  let c := pyStrip analysis
  let l := c.toList
  if l.head? = some backtickChar && l.getLast? = some backtickChar then
    pyStrip (String.mk ((l.drop 1).dropLast))
  else
    c

/-- Lines 873-874: `bool(cleaned_result) and word_count < 4 and "icon" not in
cleaned_result.lower()`. -/
def is_likely_locator (analysis : String) : Bool :=
  let c := cleanedResult analysis
  (!c.isEmpty) && (pySplit c).length < 4 && !(pyIn "icon" (pyLower c))

/-- The classification condition exactly as the claim words it: after
stripping surrounding backticks the reply is non-empty, has fewer than 4
whitespace-separated words, and does not contain `icon` case-insensitively. -/
def locatorLikeClaim (analysis : String) : Prop :=
  cleanedResult analysis ≠ "" ∧
    (pySplit (cleanedResult analysis)).length < 4 ∧
    pyIn (pyLower "icon") (pyLower (cleanedResult analysis)) = false

instance (analysis : String) : Decidable (locatorLikeClaim analysis) := by
  unfold locatorLikeClaim; infer_instance

/-! ### Workflow state (`class AgentState(TypedDict)`, lines 468-476)

Every field is read with `state.get(...)` in the source, so a missing key
and a stored `None` are indistinguishable; both become `none` here.  The
field `upload_result` is NOT declared by the `AgentState` TypedDict and is
never written by any node, but `should_browse_results_or_end` (line 893)
reads it with `state.get("upload_result")`; it is kept as a field so that
the fact that it stays `none` through every run is proved, not assumed. -/

structure AgentState where
  task : Option String
  image_path : Option String
  current_url : Option String
  page_content : Option String
  screenshot : Option String
  error_message : Option String
  analysis_result : Option String
  upload_result : Option String
deriving DecidableEq, Repr

/-- `AgentState(task=task, image_path=image_path)` (line 1014): every other
key is absent. -/
def initialState (task image_path : String) : AgentState :=
  { task := some task, image_path := some image_path, current_url := none
    page_content := none, screenshot := none, error_message := none
    analysis_result := none, upload_result := none }

/-! ### Environments: the outcomes of external effects

Each node's interaction with the browser or the model is a single effectful
call whose outcome the node branches on; the embedding passes that outcome
in explicitly.  A model call is `Except String String`: `.ok reply` is the
model's text, `.error e` a raised exception with message `str(e)`. -/

/-- The dict returned by `_browse_web_page_internal` (lines 238-255): the
success path has keys `text_content`, `screenshot_base64`, `url`; the
exception path adds `error` (and sets `screenshot_base64` to `None`). -/
structure BrowseResult where
  text_content : Option String
  screenshot_base64 : Option String
  url : Option String
  error : Option String
deriving DecidableEq, Repr

/-- The dict returned by `_capture_current_page` (lines 140, 162-167, 176):
keys `current_url`, `page_content`, `screenshot`, `error_message`. -/
structure CaptureResult where
  current_url : Option String
  page_content : Option String
  screenshot : Option String
  error_message : Option String
deriving DecidableEq, Repr

/-- Outcome of the capture performed by `upload_browse_node` (lines 581-643):
the page handle may be unavailable, the text/screenshot extraction may
succeed, or any step may raise. -/
inductive DialogCapture where
  | unavailable
  | ok (url : String) (text : String) (screenshotB64 : String)
  | exn (msg : String) (urlOnError : String)
deriving DecidableEq, Repr

/-- The dict returned by `_upload_file_internal` (lines 342-465). -/
structure UploadDict where
  upload_status : String
  current_url : Option String
  page_content : Option String
  screenshot : Option String
  error_message : Option String
deriving DecidableEq, Repr

/-- All external outcomes of one run, in stage order. -/
structure Env where
  browse : BrowseResult
  cameraLLM : Except String String
  clickResult : String
  dialogCapture : DialogCapture
  dialogPageAvailable : Bool
  dialogLLM : Except String String
  upload : UploadDict
  resultsCapture : CaptureResult
  resultsLLM : Except String String

/-- Line 236 / 626: text longer than 3000 characters is truncated before it
is stored for the model prompt. -/
def truncateForLLM (t : String) : String :=
  if t.length > 3000 then
    (String.mk (t.toList.take 3000)) ++ "... [Text content truncated for LLM context]"
  else t

/-! ### Graph nodes (lines 479-818)

Each node is a pure function from its external outcome and the incoming
state to the outgoing state; the three vision-analysis nodes also report
whether they invoked the model (`Bool`), which is what claims C4 and C9
are about. -/

/-- `start_browse_node` (lines 479-494). -/
def start_browse_node (br : BrowseResult) (s : AgentState) : AgentState :=
  if truthy br.error then
    { s with error_message := br.error }
  else
    { s with
          current_url := br.url
          page_content := br.text_content
          screenshot := br.screenshot_base64
          error_message := none }

/-- `analyze_vision_node` (lines 497-555).  The screenshot check (line 505)
precedes prompt construction, so no model call happens without one; the
`except` branch (lines 549-553) stores the sentinel and the error. -/
def analyze_vision_node (llm : Except String String) (s : AgentState) :
    AgentState × Bool :=
  if !truthy s.screenshot then
    ({ s with
          error_message := some "No screenshot available for analysis."
          analysis_result := some "Camera icon not visually found" }, false)
  else
    match llm with
    | .ok resp =>
      let analysis := pyStrip resp
      if pyStartsWith "Camera icon" analysis ||
          analysis = "Camera icon not visually found" then
        ({ s with analysis_result := some analysis, error_message := none }, true)
      else
        ({ s with
              analysis_result := some "Camera icon not visually found"
              error_message := some "LLM analysis format unexpected." }, true)
    | .error e =>
      ({ s with
            error_message := some ("LLM analysis failed: " ++ e)
            analysis_result := some "Camera icon not visually found" }, true)

/-- `click_node` (lines 557-575): returns an update dict holding only
`error_message`, which LangGraph merges into the state. -/
def click_node (clickResult : String) (s : AgentState) : AgentState :=
  if truthy s.analysis_result &&
      !(s.analysis_result = some "Camera icon not visually found") then
    if pyIn "Error" clickResult then
      { s with error_message := some clickResult }
    else
      { s with error_message := none }
  else
    if !truthy s.analysis_result then
      { s with error_message := some "Analysis result missing for click node." }
    else
      { s with
            error_message :=
            some "No valid target description/selector provided for clicking." }

/-- `upload_browse_node` (lines 577-645), the node registered as
`capture_upload_dialog_page`: recapture the current page without
navigating.  Both failure branches leave `page_content` and `screenshot`
as `None`. -/
def upload_browse_node (cap : DialogCapture) (s : AgentState) : AgentState :=
  match cap with
  | .unavailable =>
    { s with
          error_message := some "Error: Page instance not available for upload_browse."
          page_content := none
          screenshot := none }
  | .ok url text b64 =>
    { s with
          current_url := some url
          page_content := some (truncateForLLM text)
          screenshot := some b64
          error_message := none }
  | .exn msg urlOnError =>
    { s with
          error_message := some msg
          current_url := some urlOnError
          page_content := none
          screenshot := none }

/-- `analyze_upload_dialog_node` (lines 647-705).  Both short-circuit
branches run before the prompt is built, so no model call happens without
page text and a screenshot. -/
def analyze_upload_dialog_node (pageAvailable : Bool)
    (llm : Except String String) (s : AgentState) : AgentState × Bool :=
  if !pageAvailable then
    ({ s with
          error_message := some "Error: Page instance not available for upload dialog analysis."
          analysis_result := some "Error: Missing input for analysis." }, false)
  else if !truthy s.page_content || !truthy s.screenshot then
    ({ s with
          error_message := some "Error: Missing page content or screenshot for upload dialog analysis."
          analysis_result := some "Error: Missing input for analysis." }, false)
  else
    match llm with
    | .ok reply =>
      ({ s with analysis_result := some reply, error_message := none }, true)
    | .error e =>
      ({ s with
            error_message := some ("LLM analysis of upload dialog failed: " ++ e)
            analysis_result := some "Error: LLM analysis of upload dialog failed." }, true)

/-- `perform_upload_node` (lines 707-746): clean the model's reply of
whitespace and quotes (line 711), check inputs, delegate to
`_upload_file_internal`, then copy the returned dict into the state and
blank `analysis_result` (line 737). -/
def perform_upload_node (upload : UploadDict) (s : AgentState) : AgentState :=
  let desc := pyStripChars ['\'', '"'] (pyStrip ((s.analysis_result).getD ""))
  if !truthy s.image_path then
    { s with error_message := some "Cannot perform upload: Image path missing." }
  else if desc.isEmpty then
    { s with error_message := some "Cannot perform upload: Upload trigger element description missing." }
  else
    { s with
          current_url := upload.current_url
          page_content := upload.page_content
          screenshot := upload.screenshot
          error_message := upload.error_message
          analysis_result := some "" }

/-- `browse_results_node` (lines 748-772): recapture the page through
`_capture_current_page`.  The `capture_result.get("error")` branch
(line 763) is dead — that dict never carries an `error` key — and its error
branch only overwrites `error_message`, leaving the stale content. -/
def browse_results_node (cap : CaptureResult) (s : AgentState) : AgentState :=
  if !truthy s.current_url then
    { s with error_message := some "Error: current_url not found in state before browsing results." }
  else if truthy cap.error_message then
    { s with error_message := some ("Error browsing results: " ++ cap.error_message.getD "") }
  else
    { s with
          page_content := cap.page_content
          screenshot := cap.screenshot
          current_url := cap.current_url
          error_message := none }

/-- `analyze_results_node` (lines 774-818). -/
def analyze_results_node (llm : Except String String) (s : AgentState) :
    AgentState × Bool :=
  if !truthy s.page_content || !truthy s.screenshot then
    ({ s with
          error_message := some "Error: Missing page content or screenshot for results analysis."
          analysis_result := some "Error: Missing input for results analysis." }, false)
  else
    match llm with
    | .ok reply =>
      ({ s with analysis_result := some reply, error_message := none }, true)
    | .error e =>
      ({ s with
            error_message := some ("LLM analysis failed: " ++ e)
            analysis_result := some "Error: LLM analysis failed." }, true)

/-! ### Conditional edges (lines 820-928)

Each decision function returns the label string the Python function
returns, paired with the state (two of the functions also assign
`state["error_message"]` before returning; the assignment is carried in
the returned state). -/

/-- `should_click_or_end` (lines 822-839). -/
def should_click_or_end (s : AgentState) : String × AgentState :=
  if truthy s.error_message then
    ("end_error", s)
  else if s.analysis_result = some "Camera icon not visually found" then
    ("end_not_found", s)
  else if truthy s.analysis_result then
    ("click", s)
  else
    ("end_error",
      { s with error_message := some "Camera analysis result was empty or missing." })

/-- `should_browse_for_upload_or_end` (lines 841-850). -/
def should_browse_for_upload_or_end (s : AgentState) : String × AgentState :=
  if truthy s.error_message then
    ("end_error", s)
  else
    ("capture_upload_dialog_page", s)

/-- `should_perform_upload_or_end` (lines 852-883).  The guards: an error
message containing `Error:`, then a missing reply or one containing
`not found` or `error` case-insensitively, then the locator heuristic. -/
def should_perform_upload_or_end (s : AgentState) : String × AgentState :=
  if truthy s.error_message && pyIn "Error:" (s.error_message.getD "") then
    ("__end__", s)
  else if !truthy s.analysis_result ||
      pyIn "not found" (pyLower ((s.analysis_result).getD "")) ||
      pyIn "error" (pyLower ((s.analysis_result).getD "")) then
    ("__end__", s)
  else if is_likely_locator ((s.analysis_result).getD "") then
    ("perform_upload", s)
  else
    ("__end__", s)

/-- `should_browse_results_or_end` (lines 885-910): reads
`state.get("upload_result")` (line 893) — a key no node writes — and only
proceeds to `browse_results` when that value contains `successfully`. -/
def should_browse_results_or_end (s : AgentState) : String × AgentState :=
  if truthy s.error_message && pyIn "Error:" (s.error_message.getD "") then
    ("end_error", s)
  else if truthy s.upload_result &&
      pyIn "successfully" (pyLower ((s.upload_result).getD "")) then
    ("browse_results", s)
  else
    ("end_error",
      if truthy s.error_message then s
      else
        { s with
              error_message := some ("Upload failed or status unclear: " ++
                (match s.upload_result with
                 | none => "None"
                 | some u => u)) })

/-- `should_return_results_or_end` (lines 912-928). -/
def should_return_results_or_end (s : AgentState) : String × AgentState :=
  if truthy s.error_message && pyIn "Error:" (s.error_message.getD "") then
    ("end_error", s)
  else if truthy s.analysis_result &&
      pyIn "Found URLs:" ((s.analysis_result).getD "") then
    ("end_success", s)
  else
    ("end_error",
      { s with
            error_message := some ("Failed to extract URLs from results page. Analysis: " ++
              (match s.analysis_result with
               | none => "None"
               | some a => a)) })

/-! ### Graph wiring and execution (lines 930-1007)

The eight nodes of the `StateGraph` and the edges exactly as registered.
A conditional edge maps the decision function's label through its path
map; a label mapped to `END`, and equally a label absent from the map
(the only such label here is `"__end__"`, which is the framework's own
`END` sentinel), terminates the run: no further node executes. -/

inductive Node where
  | start_browse
  | analyze_vision
  | click
  | capture_upload_dialog_page
  | analyze_upload_dialog
  | perform_upload
  | browse_results
  | analyze_results
deriving DecidableEq, Repr

/-- Where control goes after a node: to another node, or the run stops,
remembering the final edge label. -/
inductive Dest where
  | node (n : Node)
  | halt (label : String)
deriving DecidableEq, Repr

/-- One node execution followed by its outgoing edge: the resulting state,
the number of vision-model invocations made by the node, and the
destination.  Edge wiring per lines 945-1004. -/
def runStep (env : Env) : Node → AgentState → AgentState × Nat × Dest
  | .start_browse, s =>
    -- `workflow.add_edge("start_browse", "analyze_vision")` (line 946): unconditional.
    (start_browse_node env.browse s, 0, .node .analyze_vision)
  | .analyze_vision, s =>
    let (s', called) := analyze_vision_node env.cameraLLM s
    let (lbl, s'') := should_click_or_end s'
    -- Path map (lines 949-957): "click" → click; "end_not_found", "end_error" → END.
    (s'', if called then 1 else 0,
      if lbl = "click" then .node .click else .halt lbl)
  | .click, s =>
    let s' := click_node env.clickResult s
    let (lbl, s'') := should_browse_for_upload_or_end s'
    -- Path map (lines 960-967).
    (s'', 0,
      if lbl = "capture_upload_dialog_page" then .node .capture_upload_dialog_page
      else .halt lbl)
  | .capture_upload_dialog_page, s =>
    -- `workflow.add_edge("capture_upload_dialog_page", "analyze_upload_dialog")` (line 970).
    (upload_browse_node env.dialogCapture s, 0, .node .analyze_upload_dialog)
  | .analyze_upload_dialog, s =>
    let (s', called) :=
      analyze_upload_dialog_node env.dialogPageAvailable env.dialogLLM s
    let (lbl, s'') := should_perform_upload_or_end s'
    -- Path map (lines 973-981): "perform_upload" → perform_upload; the other two
    -- map keys go to END, and the label "__end__" the function actually returns is
    -- the END sentinel itself: either way the run stops.
    (s'', if called then 1 else 0,
      if lbl = "perform_upload" then .node .perform_upload else .halt lbl)
  | .perform_upload, s =>
    let s' := perform_upload_node env.upload s
    let (lbl, s'') := should_browse_results_or_end s'
    -- Path map (lines 984-991).
    (s'', 0,
      if lbl = "browse_results" then .node .browse_results else .halt lbl)
  | .browse_results, s =>
    -- `workflow.add_edge("browse_results", "analyze_results")` (line 994).
    (browse_results_node env.resultsCapture s, 0, .node .analyze_results)
  | .analyze_results, s =>
    let (s', called) := analyze_results_node env.resultsLLM s
    let (lbl, s'') := should_return_results_or_end s'
    -- Path map (lines 997-1004): both "end_success" and "end_error" go to END.
    (s'', if called then 1 else 0, .halt lbl)

/-- Run the graph for at most `fuel` node executions.  Returns the list of
nodes executed, the final state, the total number of vision-model calls
made, and the label of the final edge (`none` only if fuel ran out; the
graph is acyclic with 8 nodes, so fuel 8 always suffices). -/
def runFrom (env : Env) : Nat → Node → AgentState →
    List Node × AgentState × Nat × Option String
  | 0, _, s => ([], s, 0, none)
  | fuel + 1, n, s =>
    match runStep env n s with
    | (s', calls, .halt lbl) => ([n], s', calls, some lbl)
    | (s', calls, .node m) =>
      match runFrom env fuel m s' with
      | (tr, sEnd, c, out) => (n :: tr, sEnd, calls + c, out)

/-- A full run: `app.astream_events(initial_state, ...)` from the entry
point `start_browse` (line 945) on `AgentState(task, image_path)`. -/
def runGraph (env : Env) (task image_path : String) :
    List Node × AgentState × Nat × Option String :=
  runFrom env 8 .start_browse (initialState task image_path)

/-! ### The click executor (`_click_element_by_description_internal`, lines 257-340)

Two ordered candidate lists: nine CSS selectors (lines 266-276) tried
first, then three `get_by_role` strategies (lines 295-299); each attempt
either clicks (success: stop) or fails silently (try the next).  The page
is abstracted by a predicate saying which strategies succeed. -/

inductive ClickStrategy where
  | css (selector : String)
  | role (role : String) (namePattern : String)
deriving DecidableEq, Repr

/-- `possible_selectors` (lines 266-276), in source order. -/
def possible_selectors : List String :=
  ["div[aria-label='按图搜索']",
   "div[aria-label='Search by image']",
   "button[aria-label='按图搜索']",
   "button[aria-label='Search by image']",
   "span[aria-label='按图搜索']",
   "span[aria-label='Search by image']",
   "div[role='button'][aria-label*='搜索']",
   "div[role='button'][aria-label*='Search']",
   "textarea[aria-label='搜索图片'] + div >> internal:control=enter-frame >> div[role='button'][aria-label*='搜索']"]

/-- `possible_roles_and_names` (lines 295-299), in source order (the regex
pattern text). -/
def possible_roles_and_names : List (String × String) :=
  [("button", "按图搜索|Search by image"),
   ("link", "按图搜索|Search by image"),
   ("button", "搜索|Search")]

/-- The full ordered candidate list: all CSS strategies, then all role
strategies (the second loop runs only `if not clicked`, line 294). -/
def clickCandidates : List ClickStrategy :=
  possible_selectors.map ClickStrategy.css ++
    possible_roles_and_names.map (fun p => ClickStrategy.role p.1 p.2)

/-- The strategies attempted, in order: each failing strategy is followed by
the next; the first succeeding strategy is the last attempted. -/
def attemptsList (succ : ClickStrategy → Bool) : List ClickStrategy → List ClickStrategy
  | [] => []
  | c :: rest => if succ c then [c] else c :: attemptsList succ rest

/-- The first succeeding strategy, if any (`clicked = True; break`). -/
def firstHit (succ : ClickStrategy → Bool) : List ClickStrategy → Option ClickStrategy
  | [] => none
  | c :: rest => if succ c then some c else firstHit succ rest

/-- Line 326: the message returned after a successful click. -/
def clickSuccessMsg (description : String) : String :=
  "Successfully clicked the element described as '" ++ description ++
    "' using a likely locator."

/-- Lines 329, 340: all strategies failed, the raised exception is caught
and rendered as an error string. -/
def clickErrorMsg (description : String) : String :=
  "Error: Could not click element described as '" ++ description ++
    "'. Details: Could not find or click the element based on the description using any known strategy."

/-- `_click_element_by_description_internal`: the returned message and the
ordered list of strategies attempted. -/
def click_element_by_description (succ : ClickStrategy → Bool)
    (description : String) : String × List ClickStrategy :=
  match firstHit succ clickCandidates with
  | some _ => (clickSuccessMsg description, attemptsList succ clickCandidates)
  | none => (clickErrorMsg description, attemptsList succ clickCandidates)

/-! ### The upload executor (`_upload_file_internal`, lines 342-465)

It scans a fixed list of common file-input selectors (lines 370-378) for
the first one that finds an attached element, then calls
`set_input_files`; the `locator_or_text` parameter appears only in the
signature (line 342) and is never read. -/

/-- `file_input_selectors` (lines 370-378), in source order. -/
def file_input_selectors : List String :=
  ["input[type='file']",
   "//input[@type='file']",
   "form input[type='file']",
   "div input[type='file']",
   "[data-testid='file-input']",
   "input[name='image']",
   "input[name='file']"]

/-- First selector in the list for which the page has an attached file
input (`wait_for_selector(..., state="attached")` succeeds, line 385). -/
def firstAttached (found : String → Bool) : List String → Option String
  | [] => none
  | sel :: rest => if found sel then some sel else firstAttached found rest

/-- Outcome of `set_input_files` (line 416): success, a Playwright timeout,
or another exception. -/
inductive SetFilesOutcome where
  | ok
  | timeout (msg : String)
  | exn (msg : String)
deriving DecidableEq, Repr

/-- The external outcomes `_upload_file_internal` branches on. -/
structure UploadEnv where
  pageAvailable : Bool
  fileExists : Bool
  pageUrl : Option String
  pageContentRaw : Option String
  found : String → Bool
  setFiles : SetFilesOutcome
  captureAfterSuccess : CaptureResult
  captureAfterFailure : CaptureResult

/-- `_upload_file_internal(locator_or_text, file_path)`: the returned dict.
The `locator_or_text` argument is carried to mirror the signature; the
body never consults it. -/
def upload_file_internal (locator_or_text : String) (file_path : String)
    (env : UploadEnv) : UploadDict :=
  -- the argument is dead in the source body; keep the binder without a warning
  let _ := locator_or_text
  if !env.pageAvailable then
    { upload_status := "Upload failed: Page not available."
      current_url := none
      page_content := none
      screenshot := none
      error_message := some "Upload failed: Page not available." }
  else if !env.fileExists then
    { upload_status := "Upload failed: File not found at " ++ file_path
      current_url := env.pageUrl
      page_content := env.pageContentRaw
      screenshot := none
      error_message := some ("Upload failed: File not found at " ++ file_path) }
  else
    let scan := firstAttached env.found file_input_selectors
    let uploadError : Option String :=
      match scan with
      | none => some "Upload failed: No suitable file input element found on the page."
      | some _ =>
        match env.setFiles with
        | .ok => none
        | .timeout m => some ("Upload failed due to timeout: " ++ m)
        | .exn m => some ("Upload failed: " ++ m)
    match uploadError with
    | none =>
      -- lines 429-452: upload succeeded, capture the page for the next stage
      let cap := env.captureAfterSuccess
      if truthy cap.error_message then
        { upload_status := "File selected, but page state capture failed."
          current_url := cap.current_url
          page_content := none
          screenshot := none
          error_message := cap.error_message }
      else
        { upload_status := "File selected. Page state captured for next step analysis."
          current_url := cap.current_url
          page_content := cap.page_content
          screenshot := cap.screenshot
          error_message := none }
    | some err =>
      -- lines 453-465: upload failed, capture the page for debugging
      let cap := env.captureAfterFailure
      { upload_status := "Upload failed."
        current_url := cap.current_url
        page_content := cap.page_content
        screenshot := cap.screenshot
        error_message := some err }

/-! ### Session teardown (`close_page_and_browser`, lines 99-112; `run_graph`, lines 1010-1118)

The three module-level handles and the unconditional `finally` teardown. -/

/-- The page handle: open or closed (`is_closed`). -/
structure PageH where
  closed : Bool
deriving DecidableEq, Repr, Fintype

/-- The browser handle: connected or not (`is_connected`). -/
structure BrowserH where
  connected : Bool
deriving DecidableEq, Repr, Fintype

/-- The module-level `_page_instance`, `_browser_instance`,
`_playwright_instance` (lines 61-63). -/
structure Resources where
  page : Option PageH
  browser : Option BrowserH
  playwright : Bool
deriving DecidableEq, Repr, Fintype

/-- `close_page_and_browser` (lines 99-112): close the page if present and
open, close the browser if present and connected, stop Playwright if
present; each handle is then cleared. -/
def close_page_and_browser (r : Resources) : Resources :=
  let page' : Option PageH :=
    match r.page with
    | some p => if !p.closed then none else some p
    | none => none
  let browser' : Option BrowserH :=
    match r.browser with
    | some b => if b.connected then none else some b
    | none => none
  { page := page', browser := browser', playwright := false }

/-- `run_graph` (lines 1010-1118): the graph invocation and result printing
sit in a `try`; an exception is caught and logged (lines 1112-1115); the
`finally` block (lines 1116-1118) runs `close_page_and_browser()` exactly
once on either path.  The result counts teardown invocations. -/
def run_graph_teardown (body : Except String Unit) (r : Resources) :
    Resources × Nat :=
  match body with
  | .ok _ => (close_page_and_browser r, 1)
  | .error _ => (close_page_and_browser r, 1)

/-! ### Screenshot sizing (lines 93, 135-167, 206-229, 601-620)

The viewport is 1366×768 (line 93).  `_browse_web_page_internal`
(lines 209-216) and `upload_browse_node` (lines 602-608) downscale the
screenshot to width at most 768 before encoding; `_capture_current_page`
(lines 151-152) base64-encodes the raw screenshot bytes with no resizing,
and its output is what `browse_results_node` stores in the state and
`analyze_results_node` sends to the model. -/

/-- An image's pixel dimensions. -/
structure Img where
  width : Nat
  height : Nat
deriving DecidableEq, Repr

/-- The viewport set on every new page (line 93). -/
def viewport : Img := { width := 1366, height := 768 }

/-- Lines 211-216 / 603-608: downscale to width 768, height proportional
(`int(height * 768 / width)`, integer floor), only when wider than 768. -/
def resizeForLLM (img : Img) : Img :=
  if img.width > 768 then
    { width := 768, height := img.height * 768 / img.width }
  else img

/-- The image whose encoding `_browse_web_page_internal` returns
(lines 207-229): the screenshot, downscaled. -/
def browseScreenshotStored (shot : Img) : Img := resizeForLLM shot

/-- The image whose encoding `upload_browse_node` stores (lines 602-620):
the screenshot, downscaled. -/
def uploadBrowseScreenshotStored (shot : Img) : Img := resizeForLLM shot

/-- The image whose encoding `_capture_current_page` stores (lines 151-152):
`base64.b64encode(screenshot_bytes)` with no resizing. -/
def captureCurrentPageScreenshotStored (shot : Img) : Img := shot

/-- A state as `should_perform_upload_or_end` sees it after a successful
upload-dialog analysis: no error, the given reply as `analysis_result`. -/
def dialogReplyState (reply : String) : AgentState :=
  { task := some "t", image_path := some "/tmp/test.png", current_url := some "u",
    page_content := some "p", screenshot := some "s", error_message := none,
    analysis_result := some reply, upload_result := none }

/-- A concrete environment in which every external effect succeeds: the
navigation yields page text and a screenshot, the camera analysis names
the icon, the click lands, the dialog capture and analysis yield the file
input selector, the upload succeeds and captures the page, and the results
analysis returns a `Found URLs:` reply. -/
def happyEnv : Env :=
  { browse :=
      { text_content := some "Google Images"
        screenshot_base64 := some "screenshotA"
        url := some "https://images.google.com/"
        error := none }
    cameraLLM := .ok "Camera icon inside search bar on the right"
    clickResult := clickSuccessMsg "Camera icon inside search bar on the right"
    dialogCapture := .ok "https://images.google.com/" "粘贴图片网址 或上传文件" "screenshotB"
    dialogPageAvailable := true
    dialogLLM := .ok "input[type='file']"
    upload :=
      { upload_status := "File selected. Page state captured for next step analysis."
        current_url := some "https://lens.google.com/search"
        page_content := some "包含匹配图片的页面 github.com/example"
        screenshot := some "screenshotC"
        error_message := none }
    resultsCapture :=
      { current_url := some "https://lens.google.com/search"
        page_content := some "包含匹配图片的页面 github.com/example"
        screenshot := some "screenshotD"
        error_message := none }
    resultsLLM := .ok "Visually similar images found. 包含匹配图片的页面 Found URLs: https://github.com/example" }

/-- The happy environment with the upload-dialog analysis reply replaced
and the stages after it arbitrary. -/
def dialogStageEnv (reply : String) (up : UploadDict) (rc : CaptureResult)
    (rl : Except String String) : Env :=
  { happyEnv with
      dialogLLM := Except.ok reply
      upload := up
      resultsCapture := rc
      resultsLLM := rl }

/-- A `_browse_web_page_internal` outcome for a failed navigation
(lines 244-255): the exception path fills `error` and leaves the
screenshot `None`. -/
def navFailedBrowse : BrowseResult :=
  { text_content := some "Error: Could not browse https://images.google.com/. Details: Timeout 45000ms exceeded."
    screenshot_base64 := none
    url := some "Unknown"
    error := some "Timeout 45000ms exceeded." }

/-- A stub page on which exactly the third click strategy lands. -/
def onlyThirdSucceeds : ClickStrategy → Bool :=
  fun c => c = ClickStrategy.css "button[aria-label='按图搜索']"

/-! ## Theorems -/

@[simp] theorem truthy_none : truthy none = false := rfl

@[simp] theorem truthy_some (s : String) : truthy (some s) = !s.isEmpty := rfl

/-- Appending to a non-empty string stays non-empty. -/
theorem append_isEmpty_false (pre e : String) (h : pre ≠ "") :
    (pre ++ e).isEmpty = false := by
  rw [Bool.eq_false_iff]
  intro hc
  apply h
  have h2 := (String.isEmpty_iff _).mp hc
  have h3 : (pre ++ e).data = [] := by rw [h2]
  rw [String.data_append] at h3
  obtain ⟨l⟩ := pre
  obtain ⟨hl, -⟩ := List.append_eq_nil.mp h3
  simp only at hl
  rw [hl]

/-- Any output of `analyze_upload_dialog_node` that carries an error routes
to `__end__` through `should_perform_upload_or_end`: in every error branch
the stored `analysis_result` contains `Error`, so the guard at line 862
fires even when the error message itself lacks the `Error:` token. -/
theorem uploadDialog_error_output_ends (pa : Bool) (llm : Except String String)
    (s : AgentState)
    (h : truthy (analyze_upload_dialog_node pa llm s).1.error_message = true) :
    (should_perform_upload_or_end (analyze_upload_dialog_node pa llm s).1).1 =
      "__end__" := by
  by_cases hpa : pa = true
  · simp only [analyze_upload_dialog_node, hpa, Bool.not_true, Bool.false_eq_true,
      if_false] at h ⊢
    by_cases hc : (!truthy s.page_content || !truthy s.screenshot) = true
    · simp only [hc, if_true] at h ⊢
      simp +decide [should_perform_upload_or_end]
    · simp only [hc, Bool.false_eq_true, if_false] at h ⊢
      cases llm with
      | ok reply => simp at h
      | error e =>
        simp only [should_perform_upload_or_end]
        split
        · rfl
        · simp +decide
  · simp only [analyze_upload_dialog_node, hpa] at h ⊢
    simp +decide [should_perform_upload_or_end]

/-- Any output of `analyze_results_node` that carries an error routes to
`end_error` through `should_return_results_or_end`: in every error branch
the stored `analysis_result` lacks the `Found URLs:` marker. -/
theorem results_error_output_ends (llm : Except String String) (s : AgentState)
    (h : truthy (analyze_results_node llm s).1.error_message = true) :
    (should_return_results_or_end (analyze_results_node llm s).1).1 =
      "end_error" := by
  simp only [analyze_results_node] at h ⊢
  by_cases hc : (!truthy s.page_content || !truthy s.screenshot) = true
  · simp only [hc, if_true] at h ⊢
    simp +decide [should_return_results_or_end]
  · simp only [hc, Bool.false_eq_true, if_false] at h ⊢
    cases llm with
    | ok reply => simp at h
    | error e =>
      simp only [should_return_results_or_end]
      split
      · rfl
      · simp +decide

/-- If the first success in the candidate list is at position `k`, the
executor attempts exactly the first `k + 1` candidates, in order, and the
first hit is the `k`-th candidate. -/
theorem firstHit_attemptsList_eq (succ : ClickStrategy → Bool) :
    ∀ (l : List ClickStrategy) (k : Nat) (hk : k < l.length),
      succ (l.get ⟨k, hk⟩) = true →
      (∀ (j : Nat) (hj : j < k), succ (l.get ⟨j, Nat.lt_trans hj hk⟩) = false) →
      firstHit succ l = some (l.get ⟨k, hk⟩) ∧
        attemptsList succ l = l.take (k + 1)
  | [], k, hk => absurd hk (Nat.not_lt_zero k)
  | c :: rest, 0, hk => by
    intro hsucc _
    simp only [List.get] at hsucc
    simp [firstHit, attemptsList, hsucc, List.get]
  | c :: rest, k + 1, hk => by
    intro hsucc hbefore
    have hc : succ c = false := by
      have := hbefore 0 (Nat.succ_pos k)
      simpa [List.get] using this
    have hk2 : k < rest.length := Nat.lt_of_succ_lt_succ hk
    have hsucc2 : succ (rest.get ⟨k, hk2⟩) = true := by
      simpa [List.get] using hsucc
    have hbefore2 : ∀ (j : Nat) (hj : j < k),
        succ (rest.get ⟨j, Nat.lt_trans hj hk2⟩) = false := by
      intro j hj
      have := hbefore (j + 1) (Nat.succ_lt_succ hj)
      simpa [List.get] using this
    obtain ⟨ih1, ih2⟩ := firstHit_attemptsList_eq succ rest k hk2 hsucc2 hbefore2
    refine ⟨?_, ?_⟩
    · simp [firstHit, hc, ih1, List.get]
    · simp [attemptsList, hc, ih2, List.take]

/-- If every candidate fails, the executor attempts all of them and finds
none. -/
theorem firstHit_attemptsList_all_fail (succ : ClickStrategy → Bool) :
    ∀ l : List ClickStrategy, (∀ c ∈ l, succ c = false) →
      firstHit succ l = none ∧ attemptsList succ l = l
  | [], _ => ⟨rfl, rfl⟩
  | c :: rest, h => by
    have hc : succ c = false := h c (List.mem_cons_self c rest)
    obtain ⟨ih1, ih2⟩ := firstHit_attemptsList_all_fail succ rest
      (fun d hd => h d (List.mem_cons_of_mem c hd))
    exact ⟨by simp [firstHit, hc, ih1], by simp [attemptsList, hc, ih2]⟩

/-- The all-fail message of the click executor is an error string. -/
theorem clickErrorMsg_startsWith (desc : String) :
    pyStartsWith "Error" (clickErrorMsg desc) = true := by
  unfold pyStartsWith
  rw [List.isPrefixOf_iff_prefix]
  have base : "Error".toList <+:
      "Error: Could not click element described as '".toList := by
    rw [← List.isPrefixOf_iff_prefix]
    decide
  have hsplit : (clickErrorMsg desc).toList =
      "Error: Could not click element described as '".toList ++
        (desc.data ++
          "'. Details: Could not find or click the element based on the description using any known strategy.".data) := by
    simp [clickErrorMsg, String.toList, String.data_append, List.append_assoc]
  rw [hsplit]
  exact base.trans (List.prefix_append _ _)


/-- C1.  The locator heuristic of `should_perform_upload_or_end` classifies a
reply as locator-like exactly when, after stripping surrounding backticks
(and whitespace), it is non-empty, has fewer than 4 whitespace-separated
words, and does not contain `icon` case-insensitively; the reply
`input[type='file']` is classified locator-like and routed to
`perform_upload`, while `the blue button labeled Upload in the center of
the dialog` is not and ends the run (label `__end__`, terminating per the
path map of lines 973-981). -/
theorem C1_locator_heuristic :
    (∀ a : String, is_likely_locator a = true ↔ locatorLikeClaim a) ∧
    is_likely_locator "input[type='file']" = true ∧
    is_likely_locator "the blue button labeled Upload in the center of the dialog" = false ∧
    (should_perform_upload_or_end (dialogReplyState "input[type='file']")).1 =
      "perform_upload" ∧
    (should_perform_upload_or_end
      (dialogReplyState "the blue button labeled Upload in the center of the dialog")).1 =
      "__end__" := by
  refine ⟨fun a => ?_, by decide, by decide, by decide, by decide⟩
  unfold is_likely_locator locatorLikeClaim
  have h : pyLower "icon" = "icon" := rfl
  rw [h]
  simp only [Bool.and_eq_true, Bool.not_eq_true', decide_eq_true_iff]
  have h2 : (cleanedResult a).isEmpty = false ↔ ¬cleanedResult a = "" := by
    rw [Bool.eq_false_iff]
    exact not_congr (String.isEmpty_iff _)
  rw [h2]
  tauto

/-- C6.  `run_graph` invokes `close_page_and_browser` exactly once on every
exit path of the top-level run — the graph body returning normally or
raising — because the call sits in the `finally` block (lines 1116-1118);
and `close_page_and_browser` is idempotent: a second call is a no-op on the
resource state. -/
theorem C6_teardown_once_idempotent :
    ∀ (body : Except String Unit) (r : Resources),
      (run_graph_teardown body r).2 = 1 ∧
      (run_graph_teardown body r).1 = close_page_and_browser r ∧
      close_page_and_browser (close_page_and_browser r) =
        close_page_and_browser r := by
  intro body r
  refine ⟨by cases body <;> rfl, by cases body <;> rfl, ?_⟩
  revert r
  decide

/-- C8.  `_upload_file_internal` never reads its `locator_or_text` argument:
for any two suggestion strings, the same page state and file path give the
same element scan over `file_input_selectors` and the same returned dict. -/
theorem C8_upload_ignores_suggestion :
    ∀ (a b file_path : String) (env : UploadEnv),
      upload_file_internal a file_path env = upload_file_internal b file_path env := by
  intro a b file_path env
  rfl

/-- C10 counterexample.  The claim says every screenshot encoding stored in
the workflow state is downscaled to width at most 768, but
`_capture_current_page` (lines 151-152) — whose output `browse_results_node`
stores into the state (lines 759-768) and `analyze_results_node` sends to
the model (line 799), and which `_upload_file_internal` also stores after a
file selection (lines 432-452) — encodes the raw screenshot: at the default
1366×768 viewport (line 93) the stored image is 1366 pixels wide. -/
theorem C10_counterexample :
    captureCurrentPageScreenshotStored viewport = viewport ∧
    viewport.width = 1366 ∧ ¬ viewport.width ≤ 768 := by
  decide

/-- C10 amended.  The screenshots encoded by `_browse_web_page_internal` and
by `upload_browse_node` are downscaled to width at most 768 before being
base64-encoded; but `_capture_current_page` (used for the post-upload and
results captures) encodes the raw screenshot unchanged, so those stored
screenshots keep the capture width (1366 at the default viewport). -/
theorem C10_amended :
    ∀ img : Img,
      (browseScreenshotStored img).width ≤ 768 ∧
      (uploadBrowseScreenshotStored img).width ≤ 768 ∧
      captureCurrentPageScreenshotStored img = img := by
  intro img
  refine ⟨?_, ?_, rfl⟩ <;>
    simp only [browseScreenshotStored, uploadBrowseScreenshotStored, resizeForLLM] <;>
    split <;> first | rfl | omega

/-- C2.  At each vision stage the stage's `not found` sentinel terminates
the run at that stage with no later stage node executing: a camera reply
equal to `Camera icon not visually found` ends the run right after
`analyze_vision` (label `end_not_found`); an upload-dialog reply containing
`not found` ends it right after `analyze_upload_dialog` (label `__end__`,
the END sentinel); and a results reply without the `Found URLs:` marker
makes the final edge return `end_error`, a label the path map of
lines 997-1004 sends to END (the results stage is the last node, so
nothing can follow it). -/
theorem C2_not_found_sentinel_ends_run :
    (∀ (env : Env) (t ip : String),
      truthy env.browse.error = false →
      truthy env.browse.screenshot_base64 = true →
      env.cameraLLM = .ok "Camera icon not visually found" →
      (runGraph env t ip).1 = [.start_browse, .analyze_vision] ∧
      (runGraph env t ip).2.2.2 = some "end_not_found") ∧
    (∀ (reply : String) (up : UploadDict) (rc : CaptureResult)
        (rl : Except String String) (t ip : String),
      pyIn "not found" (pyLower reply) = true →
      (runGraph (dialogStageEnv reply up rc rl) t ip).1 =
        [.start_browse, .analyze_vision, .click, .capture_upload_dialog_page,
         .analyze_upload_dialog] ∧
      (runGraph (dialogStageEnv reply up rc rl) t ip).2.2.2 = some "__end__") ∧
    (∀ (env : Env) (reply : String) (s : AgentState),
      env.resultsLLM = .ok reply →
      pyIn "Found URLs:" reply = false →
      (runStep env .analyze_results s).2.2 = .halt "end_error") := by
  refine ⟨?_, ?_, ?_⟩
  · intro env t ip hErr hShot hCam
    obtain ⟨br, cam, clk, dcap, dpa, dllm, up, rc, rl⟩ := env
    simp only at hErr hShot hCam
    subst hCam
    constructor <;>
      simp +decide [runGraph, runFrom, runStep, initialState, start_browse_node,
        analyze_vision_node, should_click_or_end, hErr, hShot]
  · intro reply up rc rl t ip hReply
    constructor <;>
      simp +decide [runGraph, runFrom, runStep, initialState, dialogStageEnv, happyEnv,
        start_browse_node, analyze_vision_node, click_node, upload_browse_node,
        analyze_upload_dialog_node, should_click_or_end,
        should_browse_for_upload_or_end, should_perform_upload_or_end,
        clickSuccessMsg, truncateForLLM, hReply]
  · intro env reply s hllm hmark
    simp only [runStep, analyze_results_node, hllm]
    split
    · simp +decide [should_return_results_or_end]
    · simp +decide [should_return_results_or_end, hmark]

/-- C2 witness: the three stage conclusions at concrete inputs — a stub
camera reply equal to the sentinel, a stub dialog reply containing
`not found`, and a stub results reply without the marker. -/
theorem C2_witness :
    (runGraph { happyEnv with cameraLLM := Except.ok "Camera icon not visually found" } "t" "/tmp/test.png").2.2.2 = some "end_not_found" ∧
    (runGraph (dialogStageEnv "File upload element not found in dialog" happyEnv.upload happyEnv.resultsCapture happyEnv.resultsLLM) "t" "/tmp/test.png").2.2.2 = some "__end__" ∧
    (runStep { happyEnv with resultsLLM := Except.ok "The results page shows no source pages." } .analyze_results (dialogReplyState "x")).2.2 = .halt "end_error" :=
  ⟨(C2_not_found_sentinel_ends_run.1
      { happyEnv with cameraLLM := Except.ok "Camera icon not visually found" }
      "t" "/tmp/test.png" (by decide) (by decide) rfl).2,
   (C2_not_found_sentinel_ends_run.2.1 "File upload element not found in dialog"
      happyEnv.upload happyEnv.resultsCapture happyEnv.resultsLLM
      "t" "/tmp/test.png" (by decide)).2,
   C2_not_found_sentinel_ends_run.2.2
      { happyEnv with resultsLLM := Except.ok "The results page shows no source pages." }
      "The results page shows no source pages." (dialogReplyState "x") rfl (by decide)⟩

/-- C7 (code bug).  With every stub succeeding — including an upload whose
status is `File selected. Page state captured for next step analysis.` and
a results reply that does contain `Found URLs:` — the run still terminates
in failure right after `perform_upload`: `should_browse_results_or_end`
(line 893) reads `state.get("upload_result")`, a key that no node ever
writes and that the `AgentState` TypedDict does not even declare, so the
success check `"successfully" in upload_result.lower()` never fires and
`browse_results`/`analyze_results` are unreachable; the run never ends with
`end_success` and never produces the `Found URLs:` reply the claim
describes. -/
theorem C7_success_path_unreachable :
    (runGraph happyEnv "Find the source URLs for the image" "/tmp/test.png").1 =
      [.start_browse, .analyze_vision, .click, .capture_upload_dialog_page,
       .analyze_upload_dialog, .perform_upload] ∧
    (runGraph happyEnv "Find the source URLs for the image" "/tmp/test.png").2.2.2 =
      some "end_error" ∧
    (runGraph happyEnv "Find the source URLs for the image" "/tmp/test.png").2.1.upload_result =
      none ∧
    (runGraph happyEnv "Find the source URLs for the image" "/tmp/test.png").2.2.1 = 2 := by
  decide

/-- C3 counterexample.  The claim says every edge out of a node whose
output carries a set error indicator leads to END, but the edge
`start_browse → analyze_vision` (line 946) is unconditional: when
navigation fails, `start_browse`'s output has `error_message` set and
control still flows to the `analyze_vision` stage node, not to END. -/
theorem C3_counterexample :
    truthy (runStep { happyEnv with browse := navFailedBrowse } .start_browse
      (initialState "t" "/tmp/test.png")).1.error_message = true ∧
    (runStep { happyEnv with browse := navFailedBrowse } .start_browse
      (initialState "t" "/tmp/test.png")).2.2 = Dest.node .analyze_vision := by
  decide

/-- C3 amended.  Once a stage's output carries a set error indicator, every
conditional edge evaluated on it routes to END (for `analyze_upload_dialog`
and `analyze_results` this holds for every output the node can produce, and
`should_browse_results_or_end` needs the run invariant that
`upload_result` is never written); the unconditional edges out of
`start_browse` and `capture_upload_dialog_page` are the exception the
counterexample exhibits: the following analysis node still executes, but
it performs no model call and its conditional edge then ends the run. -/
theorem C3_amended :
    (∀ s : AgentState, truthy s.error_message = true →
      (should_click_or_end s).1 = "end_error") ∧
    (∀ s : AgentState, truthy s.error_message = true →
      (should_browse_for_upload_or_end s).1 = "end_error") ∧
    (∀ (pa : Bool) (llm : Except String String) (s : AgentState),
      truthy (analyze_upload_dialog_node pa llm s).1.error_message = true →
      (should_perform_upload_or_end (analyze_upload_dialog_node pa llm s).1).1 =
        "__end__") ∧
    (∀ s : AgentState, s.upload_result = none → truthy s.error_message = true →
      (should_browse_results_or_end s).1 = "end_error") ∧
    (∀ (llm : Except String String) (s : AgentState),
      truthy (analyze_results_node llm s).1.error_message = true →
      (should_return_results_or_end (analyze_results_node llm s).1).1 =
        "end_error") ∧
    (∀ (br : BrowseResult) (llm : Except String String) (t ip : String),
      truthy (start_browse_node br (initialState t ip)).error_message = true →
      (analyze_vision_node llm (start_browse_node br (initialState t ip))).2 = false ∧
      (should_click_or_end
        (analyze_vision_node llm (start_browse_node br (initialState t ip))).1).1 =
        "end_error") ∧
    (∀ (cap : DialogCapture) (pa : Bool) (llm : Except String String) (s : AgentState),
      truthy (upload_browse_node cap s).error_message = true →
      (analyze_upload_dialog_node pa llm (upload_browse_node cap s)).2 = false ∧
      (should_perform_upload_or_end
        (analyze_upload_dialog_node pa llm (upload_browse_node cap s)).1).1 =
        "__end__") := by
  refine ⟨?_, ?_, ?_, ?_, ?_, ?_, ?_⟩
  · intro s h
    simp [should_click_or_end, h]
  · intro s h
    simp [should_browse_for_upload_or_end, h]
  · exact uploadDialog_error_output_ends
  · intro s hup h
    simp only [should_browse_results_or_end, hup, h]
    split
    · rfl
    · simp
  · exact results_error_output_ends
  · intro br llm t ip h
    by_cases hbe : truthy br.error = true
    · constructor <;>
        simp +decide [start_browse_node, analyze_vision_node, should_click_or_end,
          initialState, hbe]
    · simp [start_browse_node, hbe] at h
  · intro cap pa llm s h
    refine ⟨?_, uploadDialog_error_output_ends pa llm _ ?_⟩ <;>
      cases cap with
      | unavailable =>
        by_cases hpa : pa = true <;>
          simp +decide [upload_browse_node, analyze_upload_dialog_node, hpa]
      | ok url text b64 => simp [upload_browse_node] at h
      | exn msg urlOnError =>
        by_cases hpa : pa = true <;>
          simp +decide [upload_browse_node, analyze_upload_dialog_node, hpa]

/-- C3 witness: the amended parts instantiated — an errored state routes
`end_error` through the click edge, and an errored dialog-analysis output
routes `__end__`. -/
theorem C3_amended_witness :
    (should_click_or_end { dialogReplyState "x" with error_message := some "boom" }).1 =
      "end_error" ∧
    (should_perform_upload_or_end
      (analyze_upload_dialog_node false (Except.ok "r") (dialogReplyState "x")).1).1 =
      "__end__" ∧
    (analyze_vision_node (Except.ok "r")
      (start_browse_node navFailedBrowse (initialState "t" "/tmp/test.png"))).2 = false :=
  ⟨C3_amended.1 _ (by decide),
   C3_amended.2.2.1 false (Except.ok "r") (dialogReplyState "x") (by decide),
   (C3_amended.2.2.2.2.2.1 navFailedBrowse (Except.ok "r") "t" "/tmp/test.png"
      (by decide)).1⟩

/-- C4.  If a capture fails (no screenshot, or no page text), every
dependent analysis stage short-circuits to an error without invoking the
model, and at run level: a failed initial navigation yields a whole run
with zero model calls, and a failed dialog capture yields zero model calls
from that point on — the run ends two nodes later without ever reaching
another model call. -/
theorem C4_capture_failure_skips_model :
    (∀ (llm : Except String String) (s : AgentState), truthy s.screenshot = false →
      (analyze_vision_node llm s).2 = false ∧
      truthy (analyze_vision_node llm s).1.error_message = true) ∧
    (∀ (pa : Bool) (llm : Except String String) (s : AgentState),
      truthy s.page_content = false ∨ truthy s.screenshot = false →
      (analyze_upload_dialog_node pa llm s).2 = false ∧
      truthy (analyze_upload_dialog_node pa llm s).1.error_message = true) ∧
    (∀ (llm : Except String String) (s : AgentState),
      truthy s.page_content = false ∨ truthy s.screenshot = false →
      (analyze_results_node llm s).2 = false ∧
      truthy (analyze_results_node llm s).1.error_message = true) ∧
    (∀ (env : Env) (t ip : String), truthy env.browse.error = true →
      (runGraph env t ip).2.2.1 = 0 ∧
      (runGraph env t ip).1 = [.start_browse, .analyze_vision]) ∧
    (∀ (env : Env) (s : AgentState),
      env.dialogCapture = .unavailable ∨ (∃ m u, env.dialogCapture = .exn m u) →
      (runFrom env 4 .capture_upload_dialog_page s).2.2.1 = 0 ∧
      (runFrom env 4 .capture_upload_dialog_page s).1 =
        [.capture_upload_dialog_page, .analyze_upload_dialog]) := by
  refine ⟨?_, ?_, ?_, ?_, ?_⟩
  · intro llm s h
    constructor <;> simp +decide [analyze_vision_node, h]
  · intro pa llm s h
    rcases h with h | h <;> by_cases hpa : pa = true <;>
      constructor <;> simp +decide [analyze_upload_dialog_node, h, hpa]
  · intro llm s h
    rcases h with h | h <;>
      constructor <;> simp +decide [analyze_results_node, h]
  · intro env t ip hErr
    obtain ⟨br, cam, clk, dcap, dpa, dllm, up, rc, rl⟩ := env
    simp only at hErr
    constructor <;>
      simp +decide [runGraph, runFrom, runStep, initialState, start_browse_node,
        analyze_vision_node, should_click_or_end, hErr]
  · intro env s hcap
    obtain ⟨br, cam, clk, dcap, dpa, dllm, up, rc, rl⟩ := env
    simp only at hcap
    rcases hcap with h | ⟨m, u, h⟩ <;> subst h <;>
      by_cases hpa : dpa = true <;>
      constructor <;>
      simp +decide [runFrom, runStep, upload_browse_node,
        analyze_upload_dialog_node, should_perform_upload_or_end, hpa]

/-- C4 witness: the short-circuits and run-level facts at concrete inputs —
a state with no screenshot, a run whose navigation failed, and a run
suffix whose dialog capture raised. -/
theorem C4_witness :
    (analyze_vision_node (Except.ok "reply")
      { dialogReplyState "x" with screenshot := none }).2 = false ∧
    (analyze_upload_dialog_node true (Except.ok "reply")
      { dialogReplyState "x" with page_content := none }).2 = false ∧
    (analyze_results_node (Except.ok "reply")
      { dialogReplyState "x" with screenshot := some "" }).2 = false ∧
    (runGraph { happyEnv with browse := navFailedBrowse } "t" "/tmp/test.png").2.2.1 = 0 ∧
    (runFrom { happyEnv with dialogCapture := .exn "page crashed" "Unknown" } 4
      .capture_upload_dialog_page (dialogReplyState "x")).2.2.1 = 0 :=
  ⟨(C4_capture_failure_skips_model.1 (Except.ok "reply")
      { dialogReplyState "x" with screenshot := none } (by decide)).1,
   (C4_capture_failure_skips_model.2.1 true (Except.ok "reply")
      { dialogReplyState "x" with page_content := none } (Or.inl (by decide))).1,
   (C4_capture_failure_skips_model.2.2.1 (Except.ok "reply")
      { dialogReplyState "x" with screenshot := some "" } (Or.inr (by decide))).1,
   (C4_capture_failure_skips_model.2.2.2.1
      { happyEnv with browse := navFailedBrowse } "t" "/tmp/test.png" (by decide)).1,
   (C4_capture_failure_skips_model.2.2.2.2
      { happyEnv with dialogCapture := .exn "page crashed" "Unknown" }
      (dialogReplyState "x")
      (Or.inr ⟨"page crashed", "Unknown", rfl⟩)).1⟩

/-- C5.  The click executor tries its candidates strictly in list order —
the CSS-selector list first, then the role+name list — stopping at the
first success: when the first succeeding candidate is the `k`-th, exactly
the first `k + 1` candidates are attempted, in order, and the success
message is returned; when all 12 fail, all 12 are attempted and an error
string (starting with `Error`) is returned. -/
theorem C5_click_fallback_order :
    clickCandidates = possible_selectors.map ClickStrategy.css ++
      possible_roles_and_names.map (fun p => ClickStrategy.role p.1 p.2) ∧
    clickCandidates.length = 12 ∧
    (∀ (succ : ClickStrategy → Bool) (desc : String) (k : Nat)
        (hk : k < clickCandidates.length),
      succ (clickCandidates.get ⟨k, hk⟩) = true →
      (∀ (j : Nat) (hj : j < k),
        succ (clickCandidates.get ⟨j, Nat.lt_trans hj hk⟩) = false) →
      click_element_by_description succ desc =
        (clickSuccessMsg desc, clickCandidates.take (k + 1)) ∧
      (clickCandidates.take (k + 1)).length = k + 1) ∧
    (∀ (succ : ClickStrategy → Bool) (desc : String),
      (∀ c ∈ clickCandidates, succ c = false) →
      click_element_by_description succ desc = (clickErrorMsg desc, clickCandidates) ∧
      pyStartsWith "Error" (clickErrorMsg desc) = true) := by
  refine ⟨rfl, by decide, ?_, ?_⟩
  · intro succ desc k hk hsucc hbefore
    obtain ⟨h1, h2⟩ := firstHit_attemptsList_eq succ clickCandidates k hk hsucc hbefore
    refine ⟨?_, ?_⟩
    · simp [click_element_by_description, h1, h2]
    · simp only [List.length_take]
      omega
  · intro succ desc h
    obtain ⟨h1, h2⟩ := firstHit_attemptsList_all_fail succ clickCandidates h
    exact ⟨by simp [click_element_by_description, h1, h2],
      clickErrorMsg_startsWith desc⟩

/-- C5 witness: on a stub page where only the third candidate (the third
CSS selector) succeeds, exactly 3 attempts are made, in order, and success
is reported; on a page where nothing succeeds, all 12 are attempted and
the error string is returned. -/
theorem C5_witness :
    click_element_by_description onlyThirdSucceeds "the camera icon" =
      (clickSuccessMsg "the camera icon", clickCandidates.take 3) ∧
    (clickCandidates.take 3).length = 3 ∧
    click_element_by_description (fun _ => false) "the camera icon" =
      (clickErrorMsg "the camera icon", clickCandidates) :=
  ⟨(C5_click_fallback_order.2.2.1 onlyThirdSucceeds "the camera icon" 2
      (by decide) (by decide) (by decide)).1,
   by decide,
   (C5_click_fallback_order.2.2.2 (fun _ => false) "the camera icon"
      (fun c _ => rfl)).1⟩

/-- C9 counterexample.  The claim says a model-call exception makes the
adapter store "the stage's sentinel 'not found' value"; at the
upload-dialog stage the stored value is
`Error: LLM analysis of upload dialog failed.`, which does not contain
`not found` at all — the run still ends, but through the `error` keyword
guard, not the `not found` one. -/
theorem C9_counterexample :
    (analyze_upload_dialog_node true (Except.error "boom")
      (dialogReplyState "ignored")).1.analysis_result =
      some "Error: LLM analysis of upload dialog failed." ∧
    pyIn "not found"
      (pyLower "Error: LLM analysis of upload dialog failed.") = false := by
  decide

/-- C9 amended.  A model-call exception is never propagated: each analysis
node catches it and stores a fixed fallback string — the `not found`
sentinel at the camera stage, `Error: ...` strings at the upload-dialog
and results stages — sets `error_message`, and the stage's outgoing edge
then ends the run (no retry: the destination is a halt, never a node). -/
theorem C9_model_exception_handled :
    (∀ (e : String) (s : AgentState),
      (analyze_vision_node (Except.error e) s).1.analysis_result =
        some "Camera icon not visually found") ∧
    (∀ (env : Env) (e : String) (s : AgentState), env.cameraLLM = Except.error e →
      (runStep env .analyze_vision s).2.2 = .halt "end_error") ∧
    (∀ (e : String) (s : AgentState),
      truthy s.page_content = true → truthy s.screenshot = true →
      (analyze_upload_dialog_node true (Except.error e) s).1.analysis_result =
        some "Error: LLM analysis of upload dialog failed.") ∧
    (∀ (env : Env) (e : String) (s : AgentState), env.dialogLLM = Except.error e →
      (runStep env .analyze_upload_dialog s).2.2 = .halt "__end__") ∧
    (∀ (e : String) (s : AgentState),
      truthy s.page_content = true → truthy s.screenshot = true →
      (analyze_results_node (Except.error e) s).1.analysis_result =
        some "Error: LLM analysis failed.") ∧
    (∀ (env : Env) (e : String) (s : AgentState), env.resultsLLM = Except.error e →
      (runStep env .analyze_results s).2.2 = .halt "end_error") := by
  refine ⟨?_, ?_, ?_, ?_, ?_, ?_⟩
  · intro e s
    by_cases h : truthy s.screenshot = true <;>
      simp [analyze_vision_node, h]
  · intro env e s hllm
    simp only [runStep]
    by_cases h : truthy s.screenshot = true
    · simp only [analyze_vision_node, hllm, h, Bool.not_true, Bool.false_eq_true,
        if_false]
      have hne : ("LLM analysis failed: " ++ e).isEmpty = false :=
        append_isEmpty_false _ e (by decide)
      simp +decide [should_click_or_end, hne]
    · simp only [Bool.not_eq_true] at h
      simp +decide [analyze_vision_node, should_click_or_end, h]
  · intro e s h1 h2
    simp [analyze_upload_dialog_node, h1, h2]
  · intro env e s hllm
    simp only [runStep]
    have h := uploadDialog_error_output_ends env.dialogPageAvailable env.dialogLLM s
    by_cases hpa : env.dialogPageAvailable = true
    · by_cases hc : (!truthy s.page_content || !truthy s.screenshot) = true
      · have herr : truthy (analyze_upload_dialog_node env.dialogPageAvailable
            env.dialogLLM s).1.error_message = true := by
          simp +decide [analyze_upload_dialog_node, hpa, hc]
        simp [h herr]
      · have herr : truthy (analyze_upload_dialog_node env.dialogPageAvailable
            env.dialogLLM s).1.error_message = true := by
          simp only [analyze_upload_dialog_node, hpa, hc, Bool.not_true,
            Bool.false_eq_true, if_false, hllm]
          simp [append_isEmpty_false "LLM analysis of upload dialog failed: " e
            (by decide)]
        simp [h herr]
    · have herr : truthy (analyze_upload_dialog_node env.dialogPageAvailable
          env.dialogLLM s).1.error_message = true := by
        simp +decide [analyze_upload_dialog_node, hpa]
      simp [h herr]
  · intro e s h1 h2
    simp [analyze_results_node, h1, h2]
  · intro env e s hllm
    simp only [runStep]
    have h := results_error_output_ends env.resultsLLM s
    by_cases hc : (!truthy s.page_content || !truthy s.screenshot) = true
    · have herr : truthy (analyze_results_node env.resultsLLM s).1.error_message =
          true := by
        simp +decide [analyze_results_node, hc]
      simp [h herr]
    · have herr : truthy (analyze_results_node env.resultsLLM s).1.error_message =
          true := by
        simp only [analyze_results_node, hc, Bool.false_eq_true, if_false, hllm]
        simp [append_isEmpty_false "LLM analysis failed: " e (by decide)]
      simp [h herr]

/-- C9 witness: the fallback sentinels and halting destinations at concrete
exception-raising stubs. -/
theorem C9_witness :
    (analyze_vision_node (Except.error "RateLimitError")
      (dialogReplyState "x")).1.analysis_result =
      some "Camera icon not visually found" ∧
    (runStep { happyEnv with cameraLLM := Except.error "RateLimitError" }
      .analyze_vision (dialogReplyState "x")).2.2 = .halt "end_error" ∧
    (analyze_upload_dialog_node true (Except.error "RateLimitError")
      (dialogReplyState "x")).1.analysis_result =
      some "Error: LLM analysis of upload dialog failed." ∧
    (runStep { happyEnv with dialogLLM := Except.error "RateLimitError" }
      .analyze_upload_dialog (dialogReplyState "x")).2.2 = .halt "__end__" ∧
    (runStep { happyEnv with resultsLLM := Except.error "RateLimitError" }
      .analyze_results (dialogReplyState "x")).2.2 = .halt "end_error" :=
  ⟨C9_model_exception_handled.1 "RateLimitError" (dialogReplyState "x"),
   C9_model_exception_handled.2.1
      { happyEnv with cameraLLM := Except.error "RateLimitError" }
      "RateLimitError" (dialogReplyState "x") rfl,
   C9_model_exception_handled.2.2.1 "RateLimitError" (dialogReplyState "x")
      (by decide) (by decide),
   C9_model_exception_handled.2.2.2.1
      { happyEnv with dialogLLM := Except.error "RateLimitError" }
      "RateLimitError" (dialogReplyState "x") rfl,
   C9_model_exception_handled.2.2.2.2.2
      { happyEnv with resultsLLM := Except.error "RateLimitError" }
      "RateLimitError" (dialogReplyState "x") rfl⟩

end FindSourceURL
